import Mathlib

/-!
Shallow embedding of the GENERATIVE-AI repository: five standalone Python
demo scripts that call the LangChain / Google Generative AI SDK and the
Streamlit UI library.  The scripts are embedded as statement lists over a
small AST, and their behaviour is given by a sequential interpreter that
is parametric in an external `World` (the hosted model oracle, the values
supplied through UI widgets, and the pressed/unpressed state of buttons).

The prompt-formatting semantics models Python `str.format` on the brace
placeholders actually occurring in the repository (single braces around a
plain identifier; the sources contain no escaped braces and no stray
closing braces, so a lone closing brace is treated as a literal
character, and an unterminated opening brace is a formatting error, as in
Python).
-/

namespace GenAI

/-- Scan the characters of a template.  The second argument is `none`
outside a placeholder and `some acc` while reading a placeholder name
(accumulated in reverse).  Returns the placeholder names in order of
appearance, or `none` when an opening brace is never closed. -/
def phChars : List Char → Option (List Char) → Option (List String)
  | [], none => some []
  | [], some _ => none
  | c :: rest, none =>
      if c = '\x7b' then phChars rest (some []) else phChars rest none
  | c :: rest, some acc =>
      if c = '\x7d' then
        (phChars rest none).map (fun ps => String.mk acc.reverse :: ps)
      else phChars rest (some (c :: acc))

/-- Placeholder names of a template string, in order of appearance. -/
def placeholders (s : String) : Option (List String) :=
  phChars s.data none

/-- Substitute placeholder values into the characters of a template.
Mirrors the shape of `phChars`: `none` is a formatting error (an
unterminated placeholder or a placeholder name missing from `vars`). -/
def fmtChars (vars : List (String × String)) :
    List Char → Option (List Char) → Option (List Char)
  | [], none => some []
  | [], some _ => none
  | c :: rest, none =>
      if c = '\x7b' then fmtChars vars rest (some [])
      else (fmtChars vars rest none).map (fun l => c :: l)
  | c :: rest, some acc =>
      if c = '\x7d' then
        match List.lookup (String.mk acc.reverse) vars with
        | none => none
        | some v => (fmtChars vars rest none).map (fun l => v.data ++ l)
      else fmtChars vars rest (some (c :: acc))

/-- Format a template string with the given variable assignment. -/
def formatStr (vars : List (String × String)) (s : String) : Option String :=
  (fmtChars vars s.data none).map String.mk

/-- Validation performed by `PromptTemplate(validate_template=True)`:
the placeholders of the template and the declared input variables agree
as sets (and the template itself is well formed). -/
def validTemplate (tmpl : String) (inputVars : List String) : Bool :=
  match placeholders tmpl with
  | none => false
  | some ps => ps.all (fun p => inputVars.contains p)
      && inputVars.all (fun v => ps.contains v)

/-- A chat message: a role (system / human / ai) and its content. -/
structure Message where
  role : String
  content : String
deriving DecidableEq, Repr

/-- Format every message template of a `ChatPromptTemplate` with the same
variable assignment. -/
def formatMessages (vars : List (String × String)) :
    List (String × String) → Option (List Message)
  | [] => some []
  | (role, tmpl) :: rest =>
      match formatStr vars tmpl, formatMessages vars rest with
      | some c, some ms => some (⟨role, c⟩ :: ms)
      | _, _ => none

/-- Runtime values that appear in the five scripts. -/
inductive Value where
  | vStr (s : String)
  | vStrList (l : List String)
  | vMsgs (l : List Message)
  | vChatModel (modelArg : Option String)
  | vEmbModel (modelArg : Option String)
  | vPrompt (tmpl : String) (inputVars : List String)
  | vChatPrompt (msgs : List (String × String))
  | vChain (tmpl : String) (inputVars : List String) (modelArg : Option String)
  | vAIMessage (content : String)
  | vEmbedding (rendered : String)
deriving DecidableEq, Repr

/-- Rendering of a value as `str(...)` / `print(...)` would show it.  The
exact text chosen for non-string values is an abstraction of the Python
repr; no claim depends on it beyond determinism. -/
def renderValue : Value → String
  | .vStr s => s
  | .vStrList l => String.intercalate ", " l
  | .vMsgs l => "messages=[" ++
      String.intercalate ", " (l.map (fun m => m.role ++ ": " ++ m.content)) ++ "]"
  | .vChatModel _ => "ChatGoogleGenerativeAI"
  | .vEmbModel _ => "GoogleGenerativeAIEmbeddings"
  | .vPrompt _ _ => "PromptTemplate"
  | .vChatPrompt _ => "ChatPromptTemplate"
  | .vChain _ _ _ => "RunnableSequence"
  | .vAIMessage c => c
  | .vEmbedding r => r

/-- Expressions occurring in the scripts (string literals, variable
references, `x.content`, `str(x)`, string concatenation). -/
inductive Expr where
  | lit (s : String)
  | var (name : String)
  | attrContent (name : String)
  | strOf (e : Expr)
  | concat (a b : Expr)

/-- Evaluate an expression to the string it prints as; `none` models an
uncaught Python exception (undefined name, missing attribute). -/
def evalExpr (binds : List (String × Value)) : Expr → Option String
  | .lit s => some s
  | .var n => (List.lookup n binds).map renderValue
  | .attrContent n =>
      match List.lookup n binds with
      | some (.vAIMessage c) => some c
      | _ => none
  | .strOf e => evalExpr binds e
  | .concat a b =>
      match evalExpr binds a, evalExpr binds b with
      | some x, some y => some (x ++ y)
      | _, _ => none

/-- Statements of the embedded scripts.  Constructors past `stWrite`
(`tryBlock`, `defErrorType`, `spawnThread`, `awaitAsync`, `acquireLock`,
`openFile`, `writeFile`) exist so that their absence from every script is
a property of the embedding rather than of the AST; none of the five
scripts contains them. -/
inductive Stmt where
  | importMod (name : String)
  | loadDotenv
  | assignStrList (v : String) (items : List String)
  | constructChatModel (v : String) (modelArg : Option String)
      (credential : Option String)
  | constructEmbeddings (v : String) (modelArg : Option String)
      (credential : Option String)
  | constructPromptTemplate (v : String) (tmpl : String)
      (inputVars : List String) (validate : Bool)
  | constructChatPromptTemplate (v : String) (msgs : List (String × String))
  | modelInvoke (res mdl : String) (arg : Expr)
  | embedDocuments (res emb docs : String)
  | chatTemplateInvoke (res tmpl : String) (args : List (String × String))
  | composeChain (v tmpl mdl : String)
  | chainInvoke (res chain : String) (args : List (String × Expr))
  | printStmt (e : Expr)
  | stHeader (s : String)
  | stTextInput (v label : String)
  | stSelectbox (v label : String) (options : List String)
  | stButton (label : String) (body : List Stmt)
  | stWrite (e : Expr)
  | tryBlock (body handler : List Stmt)
  | defErrorType (name : String)
  | spawnThread (body : List Stmt)
  | awaitAsync
  | acquireLock
  | openFile (path mode : String)
  | writeFile (path : String) (e : Expr)

/-- Observable events of a run: loading the environment file, a hosted
chat-model call, a hosted embedding call, text printed to stdout or
displayed by a Streamlit widget, and a file write. -/
inductive Event where
  | envLoad
  | chatCall (modelArg : Option String) (prompt : String)
  | embedCall (modelArg : Option String) (docs : List String)
  | out (s : String)
  | fileWrite (path content : String)
deriving DecidableEq, Repr

/-- The external world a run interacts with: the hosted model oracle (its
response to each prompt), the embedding oracle (the rendering of its
result), and the state of the UI widgets. -/
structure World where
  chatResponse : Option String → String → String
  embedRender : Option String → List String → String
  textInput : String → String
  selectIdx : String → Nat
  buttonPressed : String → Bool

/-- State threaded through a run: variable bindings (most recent first)
and the events emitted so far, in order. -/
structure ExecState where
  binds : List (String × Value)
  events : List Event

/-- Evaluate the value expressions of an invoke dictionary. -/
def evalArgs (binds : List (String × Value)) :
    List (String × Expr) → Option (List (String × String))
  | [] => some []
  | (k, e) :: rest =>
      match evalExpr binds e, evalArgs binds rest with
      | some v, some kvs => some ((k, v) :: kvs)
      | _, _ => none

mutual

/-- Execute one statement; `none` models an uncaught Python exception
propagating to the top level (no script catches anything). -/
def execStmt (w : World) (st : ExecState) : Stmt → Option ExecState
  | .importMod _ => some st
  | .loadDotenv => some { st with events := st.events ++ [.envLoad] }
  | .assignStrList v items =>
      some { st with binds := (v, .vStrList items) :: st.binds }
  | .constructChatModel v m _cred =>
      some { st with binds := (v, .vChatModel m) :: st.binds }
  | .constructEmbeddings v m _cred =>
      some { st with binds := (v, .vEmbModel m) :: st.binds }
  | .constructPromptTemplate v t iv validate =>
      if validate && !(validTemplate t iv) then none
      else some { st with binds := (v, .vPrompt t iv) :: st.binds }
  | .constructChatPromptTemplate v msgs =>
      some { st with binds := (v, .vChatPrompt msgs) :: st.binds }
  | .modelInvoke r m a =>
      match List.lookup m st.binds, evalExpr st.binds a with
      | some (.vChatModel ma), some prompt =>
          some { binds := (r, .vAIMessage (w.chatResponse ma prompt)) :: st.binds,
                 events := st.events ++ [.chatCall ma prompt] }
      | _, _ => none
  | .embedDocuments r e d =>
      match List.lookup e st.binds, List.lookup d st.binds with
      | some (.vEmbModel ma), some (.vStrList docs) =>
          some { binds := (r, .vEmbedding (w.embedRender ma docs)) :: st.binds,
                 events := st.events ++ [.embedCall ma docs] }
      | _, _ => none
  | .chatTemplateInvoke r t args =>
      match List.lookup t st.binds with
      | some (.vChatPrompt msgs) =>
          match formatMessages args msgs with
          | some ms => some { st with binds := (r, .vMsgs ms) :: st.binds }
          | none => none
      | _ => none
  | .composeChain v t m =>
      match List.lookup t st.binds, List.lookup m st.binds with
      | some (.vPrompt tmpl iv), some (.vChatModel ma) =>
          some { st with binds := (v, .vChain tmpl iv ma) :: st.binds }
      | _, _ => none
  | .chainInvoke r c args =>
      match List.lookup c st.binds with
      | some (.vChain tmpl _iv ma) =>
          match evalArgs st.binds args with
          | some kvs =>
              match formatStr kvs tmpl with
              | some prompt =>
                  some { binds :=
                           (r, .vAIMessage (w.chatResponse ma prompt)) :: st.binds,
                         events := st.events ++ [.chatCall ma prompt] }
              | none => none
          | none => none
      | _ => none
  | .printStmt e =>
      (evalExpr st.binds e).map
        (fun s => { st with events := st.events ++ [.out s] })
  | .stHeader s => some { st with events := st.events ++ [.out s] }
  | .stTextInput v label =>
      some { st with binds := (v, .vStr (w.textInput label)) :: st.binds }
  | .stSelectbox v label opts =>
      some { st with binds :=
               (v, .vStr (opts.getD (w.selectIdx label % opts.length) ""))
               :: st.binds }
  | .stButton label body =>
      if w.buttonPressed label then execList w st body else some st
  | .stWrite e =>
      (evalExpr st.binds e).map
        (fun s => { st with events := st.events ++ [.out s] })
  | .tryBlock body handler =>
      match execList w st body with
      | some st2 => some st2
      | none => execList w st handler
  | .defErrorType _ => some st
  | .spawnThread body => execList w st body
  | .awaitAsync => some st
  | .acquireLock => some st
  | .openFile _ _ => some st
  | .writeFile path e =>
      (evalExpr st.binds e).map
        (fun s => { st with events := st.events ++ [.fileWrite path s] })

/-- Execute a statement list in order, stopping at the first error. -/
def execList (w : World) (st : ExecState) : List Stmt → Option ExecState
  | [] => some st
  | s :: rest =>
      match execStmt w st s with
      | some st2 => execList w st2 rest
      | none => none

end

/-- Run a script from the empty state. -/
def run (w : World) (script : List Stmt) : Option ExecState :=
  execList w { binds := [], events := [] } script

/-- The events a run emits, when it does not raise. -/
def trace (w : World) (script : List Stmt) : Option (List Event) :=
  (run w script).map ExecState.events

/-- The hosted-model calls a run makes, when it does not raise. -/
def hostedCalls (w : World) (script : List Stmt) : Option (List Event) :=
  (trace w script).map (List.filter (fun e =>
    match e with
    | .chatCall _ _ => true
    | .embedCall _ _ => true
    | _ => false))

/-- The strings a run prints or displays, in order, when it does not
raise. -/
def outputs (w : World) (script : List Stmt) : Option (List String) :=
  (trace w script).map (List.filterMap (fun e =>
    match e with
    | .out s => some s
    | _ => none))

/-! ## The five scripts of the repository, statement by statement -/

/-- The three document strings of embedd_docs.py. -/
def documents : List String :=
  ["Delhi is the capital of India",
   "Kolkata is the capital of West Bengal",
   "Paris is the capital of France"]

/-- src/01_LangChainModels/ChatModels/googleGeminiChatModelDemo.py -/
def googleGeminiChatModelDemo : List Stmt :=
  [.importMod "dotenv",
   .importMod "langchain_google_genai",
   .loadDotenv,
   .printStmt (.lit "Started"),
   .constructChatModel "model" (some "gemini-2.5-flash") none,
   .modelInvoke "result" "model" (.lit "Tell me a poem of 5 lines on Football"),
   .printStmt (.attrContent "result")]

/-- src/01_LangChainModels/EmbeddingModels/embedd_docs.py -/
def embedd_docs : List Stmt :=
  [.importMod "langchain_google_genai",
   .importMod "dotenv",
   .loadDotenv,
   .printStmt (.lit "Working on Embeddings"),
   .assignStrList "documents" documents,
   .constructEmbeddings "embedding" (some "models/gemini-embedding-001") none,
   .embedDocuments "result" "embedding" "documents",
   .printStmt (.concat (.lit "Query Result: ") (.strOf (.var "result")))]

/-- src/02_Prompts/chatPromptTemplate.py -/
def chatPromptTemplate : List Stmt :=
  [.importMod "langchain_core.prompts",
   .constructChatPromptTemplate "chat_template"
     [("system", "You are a helpful {domain} expert"),
      ("human", "Explain in simple terms, what is {topic}")],
   .chatTemplateInvoke "prompt" "chat_template"
     [("domain", "cricket"), ("topic", "Dusra")],
   .printStmt (.var "prompt")]

/-- src/02_Prompts/simpleUIApplication.py -/
def simpleUIApplication : List Stmt :=
  [.importMod "dotenv",
   .importMod "langchain_google_genai",
   .loadDotenv,
   .importMod "streamlit",
   .stHeader "Simple Gemini Chat Application",
   .stTextInput "user_input" "Please enter your query for Gemini....",
   .constructChatModel "model" (some "gemini-2.5-flash") none,
   .stButton "Go....."
     [.modelInvoke "result" "model" (.var "user_input"),
      .stWrite (.attrContent "result")]]

/-- The triple-quoted template string of
src/02_Prompts/dynamicPromptbasedApplication.py, verbatim (including the
trailing double spaces of several lines). -/
def template : String :=
  "\nPlease summarize the research paper titled \"{paper_input}\" with the following specifications:\nExplanation Style: {style_input}  \nExplanation Length: {length_input}  \n1. Mathematical Details:  \n   - Include relevant mathematical equations if present in the paper.  \n   - Explain the mathematical concepts using simple, intuitive code snippets where applicable.  \n2. Analogies:  \n   - Use relatable analogies to simplify complex ideas.  \nIf certain information is not available in the paper, respond with: \"Insufficient information available\" instead of guessing.  \nEnsure the summary is clear, accurate, and aligned with the provided style and length.\n"

/-- The declared input variables of the dynamic prompt template. -/
def input_variables : List String :=
  ["paper_input", "style_input", "length_input"]

/-- The four research-paper options of the first selectbox. -/
def paperOptions : List String :=
  ["Attention Is All You Need",
   "BERT: Pre-training of Deep Bidirectional Transformers",
   "GPT-3: Language Models are Few-Shot Learners",
   "Diffusion Models Beat GANs on Image Synthesis"]

/-- The four style options of the second selectbox. -/
def styleOptions : List String :=
  ["Beginner-Friendly", "Technical", "Code-Oriented", "Mathematical"]

/-- The three length options of the third selectbox. -/
def lengthOptions : List String :=
  ["Short (1-2 paragraphs)", "Medium (3-5 paragraphs)",
   "Long (detailed explanation)"]

/-- src/02_Prompts/dynamicPromptbasedApplication.py -/
def dynamicPromptbasedApplication : List Stmt :=
  [.importMod "langchain_core.prompts",
   .importMod "langchain_google_genai",
   .importMod "dotenv",
   .importMod "streamlit",
   .constructPromptTemplate "template" template input_variables true,
   .loadDotenv,
   .constructChatModel "model" none none,
   .stHeader "Reasearch Tool",
   .stSelectbox "paper_input" "Select Research Paper Name" paperOptions,
   .stSelectbox "style_input" "Select Explanation Style" styleOptions,
   .stSelectbox "length_input" "Select Explanation Length" lengthOptions,
   .stButton "Summarize"
     [.composeChain "chain" "template" "model",
      .chainInvoke "result" "chain"
        [("paper_input", .var "paper_input"),
         ("style_input", .var "style_input"),
         ("length_input", .var "length_input")],
      .stWrite (.attrContent "result")]]

/-- All five scripts of the repository. -/
def allScripts : List (List Stmt) :=
  [googleGeminiChatModelDemo, embedd_docs, chatPromptTemplate,
   simpleUIApplication, dynamicPromptbasedApplication]

/-! ## Structural view: every statement of a script, nested bodies
included, in pre-order (which coincides with execution order) -/

mutual

/-- A statement together with every statement nested inside it. -/
def Stmt.subs : Stmt → List Stmt
  | .stButton l b => .stButton l b :: subsList b
  | .tryBlock b h => .tryBlock b h :: (subsList b ++ subsList h)
  | .spawnThread b => .spawnThread b :: subsList b
  | s => [s]

/-- Every statement of a statement list, nested bodies included. -/
def subsList : List Stmt → List Stmt
  | [] => []
  | s :: rest => s.subs ++ subsList rest

end

/-- Statements that call the hosted Google model (chat completion,
embedding, or a prompt-model chain). -/
def isHostedCall : Stmt → Bool
  | .modelInvoke _ _ _ => true
  | .embedDocuments _ _ _ => true
  | .chainInvoke _ _ _ => true
  | _ => false

/-- Statements that print to stdout or display through a Streamlit
widget. -/
def isDisplay : Stmt → Bool
  | .printStmt _ => true
  | .stWrite _ => true
  | .stHeader _ => true
  | _ => false

/-- Statements that catch an exception or define an error type. -/
def isErrorHandling : Stmt → Bool
  | .tryBlock _ _ => true
  | .defErrorType _ => true
  | _ => false

/-- Concurrency primitives and explicit resource acquisition. -/
def isConcurrencyOrResource : Stmt → Bool
  | .spawnThread _ => true
  | .awaitAsync => true
  | .acquireLock => true
  | .openFile _ _ => true
  | _ => false

/-- Statements that create or mutate state surviving the run. -/
def isPersistentWrite : Stmt → Bool
  | .writeFile _ _ => true
  | .openFile _ _ => true
  | _ => false

/-- Statements that construct a hosted-model or embeddings client. -/
def isClientCtor : Stmt → Bool
  | .constructChatModel _ _ _ => true
  | .constructEmbeddings _ _ _ => true
  | _ => false

/-- Scan a flat statement list in order, checking that every client
constructor comes after a `load_dotenv()` call and passes no explicit
credential.  The flag records whether `load_dotenv()` has been seen. -/
def dotenvBeforeClients : Bool → List Stmt → Bool
  | _, [] => true
  | seen, s :: rest =>
      match s with
      | .loadDotenv => dotenvBeforeClients true rest
      | .constructChatModel _ _ cred =>
          (seen && cred.isNone) && dotenvBeforeClients seen rest
      | .constructEmbeddings _ _ cred =>
          (seen && cred.isNone) && dotenvBeforeClients seen rest
      | _ => dotenvBeforeClients seen rest

/-! ## Derived values and concrete worlds used in the statements -/

/-- The messages that chatPromptTemplate.py computes and prints (the
expected value is also recorded in the docstring at the bottom of that
file). -/
def dusraMessages : List Message :=
  [⟨"system", "You are a helpful cricket expert"⟩,
   ⟨"human", "Explain in simple terms, what is Dusra"⟩]

/-- The value the first selectbox hands to the dynamic script. -/
def paperSel (w : World) : String :=
  paperOptions.getD (w.selectIdx "Select Research Paper Name" % paperOptions.length) ""

/-- The value the second selectbox hands to the dynamic script. -/
def styleSel (w : World) : String :=
  styleOptions.getD (w.selectIdx "Select Explanation Style" % styleOptions.length) ""

/-- The value the third selectbox hands to the dynamic script. -/
def lengthSel (w : World) : String :=
  lengthOptions.getD (w.selectIdx "Select Explanation Length" % lengthOptions.length) ""

/-- The dictionary chain.invoke receives in the dynamic script. -/
def dynArgs (w : World) : List (String × String) :=
  [("paper_input", paperSel w), ("style_input", styleSel w),
   ("length_input", lengthSel w)]

/-- Events that create no state surviving the run. -/
def nonPersistentEvent : Event → Bool
  | .fileWrite _ _ => false
  | _ => true

/-- A concrete world: both buttons pressed, first option of every
selectbox chosen, and a fixed model oracle. -/
def sampleWorld : World where
  chatResponse := fun _ _ => "ALPHA"
  embedRender := fun _ _ => "E1"
  textInput := fun _ => "hi"
  selectIdx := fun _ => 0
  buttonPressed := fun _ => true

/-- A world identical to `sampleWorld` on every UI field but with a
hosted oracle answering differently on every input. -/
def altWorld : World where
  chatResponse := fun _ _ => "BETA"
  embedRender := fun _ _ => "E2"
  textInput := fun _ => "hi"
  selectIdx := fun _ => 0
  buttonPressed := fun _ => true

/-! ## Helper lemmas -/

theorem isSome_map_opt {α β : Type} (f : α → β) (o : Option α) :
    (Option.map f o).isSome = o.isSome := by cases o <;> rfl

/-- Formatting succeeds whenever the template is well formed and every
placeholder is a key of the variable assignment (the scan of `fmtChars`
visits exactly the placeholders `phChars` collects). -/
theorem fmtChars_isSome (vars : List (String × String)) :
    ∀ (cs : List Char) (mode : Option (List Char)) (ps : List String),
      phChars cs mode = some ps →
      (∀ p ∈ ps, (List.lookup p vars).isSome) →
      (fmtChars vars cs mode).isSome := by
  intro cs
  induction cs with
  | nil =>
      intro mode ps hph _hlk
      cases mode with
      | none => simp [fmtChars]
      | some acc => simp [phChars] at hph
  | cons c rest ih =>
      intro mode ps hph hlk
      cases mode with
      | none =>
          by_cases hc : c = '\x7b'
          · rw [phChars, if_pos hc] at hph
            rw [fmtChars, if_pos hc]
            exact ih (some []) ps hph hlk
          · rw [phChars, if_neg hc] at hph
            rw [fmtChars, if_neg hc]
            rw [isSome_map_opt]
            exact ih none ps hph hlk
      | some acc =>
          by_cases hc : c = '\x7d'
          · rw [phChars, if_pos hc] at hph
            obtain ⟨ps', hps', rfl⟩ := Option.map_eq_some'.mp hph
            rw [fmtChars, if_pos hc]
            have hname := hlk (String.mk acc.reverse) (List.mem_cons_self _ _)
            obtain ⟨v, hv⟩ := Option.isSome_iff_exists.mp hname
            rw [hv]
            rw [isSome_map_opt]
            exact ih none ps' hps' (fun p hp => hlk p (List.mem_cons_of_mem _ hp))
          · rw [phChars, if_neg hc] at hph
            rw [fmtChars, if_neg hc]
            exact ih (some (c :: acc)) ps hph hlk

/-- String-level version of `fmtChars_isSome`. -/
theorem formatStr_isSome (vars : List (String × String)) (s : String)
    (ps : List String) (hph : placeholders s = some ps)
    (hlk : ∀ p ∈ ps, (List.lookup p vars).isSome) :
    (formatStr vars s).isSome := by
  rw [formatStr, isSome_map_opt]
  exact fmtChars_isSome vars s.data none ps hph hlk

/-- A `getD` at an index reduced modulo the length stays in the list. -/
theorem getD_mod_mem (l : List String) (n : Nat) (h : l ≠ []) :
    l.getD (n % l.length) "" ∈ l := by
  have hl : 0 < l.length := List.length_pos.mpr h
  have hn : n % l.length < l.length := Nat.mod_lt _ hl
  rw [List.getD_eq_getElem l "" hn]
  exact List.getElem_mem hn

set_option maxRecDepth 8000 in
/-- The placeholders of the dynamic template are exactly the declared
input variables, in order. -/
theorem dyn_placeholders : placeholders template = some input_variables := rfl

set_option maxRecDepth 8000 in
/-- The dynamic template passes `validate_template=True`. -/
theorem dyn_valid : validTemplate template input_variables = true := rfl

/-- The invoke dictionary of the dynamic script binds every declared
input variable. -/
theorem dynArgs_lookup (w : World) :
    ∀ p ∈ input_variables, (List.lookup p (dynArgs w)).isSome := by
  intro p hp
  simp only [input_variables, List.mem_cons, List.not_mem_nil, or_false] at hp
  rcases hp with rfl | rfl | rfl
  · rfl
  · rfl
  · rfl

/-- googleGeminiChatModelDemo.py: the full event trace under any world. -/
theorem run_gemini (w : World) :
    trace w googleGeminiChatModelDemo = some [.envLoad, .out "Started",
      .chatCall (some "gemini-2.5-flash") "Tell me a poem of 5 lines on Football",
      .out (w.chatResponse (some "gemini-2.5-flash")
        "Tell me a poem of 5 lines on Football")] := rfl

/-- embedd_docs.py: the full event trace under any world. -/
theorem run_embedd (w : World) :
    trace w embedd_docs = some [.envLoad, .out "Working on Embeddings",
      .embedCall (some "models/gemini-embedding-001") documents,
      .out ("Query Result: "
        ++ w.embedRender (some "models/gemini-embedding-001") documents)] := rfl

/-- chatPromptTemplate.py: the full final state under any world; nothing
of the world is consulted. -/
theorem run_chat (w : World) :
    run w chatPromptTemplate = some
      { binds := [("prompt", .vMsgs dusraMessages),
                  ("chat_template", .vChatPrompt
                    [("system", "You are a helpful {domain} expert"),
                     ("human", "Explain in simple terms, what is {topic}")])],
        events := [.out (renderValue (.vMsgs dusraMessages))] } := rfl

/-- simpleUIApplication.py with the button pressed: the full trace. -/
theorem run_simpleUI_pressed (w : World)
    (hb : w.buttonPressed "Go....." = true) :
    trace w simpleUIApplication = some [.envLoad,
      .out "Simple Gemini Chat Application",
      .chatCall (some "gemini-2.5-flash")
        (w.textInput "Please enter your query for Gemini...."),
      .out (w.chatResponse (some "gemini-2.5-flash")
        (w.textInput "Please enter your query for Gemini...."))] := by
  simp [trace, run, execList, execStmt, hb, evalExpr, renderValue, List.lookup]

/-- simpleUIApplication.py with the button not pressed: the full trace. -/
theorem run_simpleUI_unpressed (w : World)
    (hb : w.buttonPressed "Go....." = false) :
    trace w simpleUIApplication = some [.envLoad,
      .out "Simple Gemini Chat Application"] := by
  simp [trace, run, execList, execStmt, hb, evalExpr, renderValue, List.lookup]

/-- dynamicPromptbasedApplication.py with the button pressed: the full
trace; the prompt sent to the model is the template formatted with the
three selectbox values. -/
theorem run_dynamic (w : World)
    (hb : w.buttonPressed "Summarize" = true) :
    ∃ prompt, formatStr (dynArgs w) template = some prompt ∧
      trace w dynamicPromptbasedApplication =
        some [.envLoad, .out "Reasearch Tool", .chatCall none prompt,
              .out (w.chatResponse none prompt)] := by
  have hsome : (formatStr (dynArgs w) template).isSome :=
    formatStr_isSome _ _ _ dyn_placeholders (dynArgs_lookup w)
  obtain ⟨prompt, hprompt⟩ := Option.isSome_iff_exists.mp hsome
  refine ⟨prompt, hprompt, ?_⟩
  simp only [dynArgs, paperSel, styleSel, lengthSel,
    List.getD_eq_getElem?_getD] at hprompt
  simp [trace, run, execList, execStmt, hb, evalExpr, renderValue,
        List.lookup, evalArgs, dyn_valid, hprompt, dynamicPromptbasedApplication]

/-- dynamicPromptbasedApplication.py with the button not pressed: the
full trace. -/
theorem run_dynamic_unpressed (w : World)
    (hb : w.buttonPressed "Summarize" = false) :
    trace w dynamicPromptbasedApplication =
      some [.envLoad, .out "Reasearch Tool"] := by
  simp [trace, run, execList, execStmt, hb, evalExpr, renderValue,
        List.lookup, dyn_valid, dynamicPromptbasedApplication]

/-- A run whose trace exists did not raise. -/
theorem run_isSome_of_trace {w : World} {s : List Stmt} {es : List Event}
    (h : trace w s = some es) : (run w s).isSome := by
  rw [trace] at h
  obtain ⟨a, ha, _⟩ := Option.map_eq_some'.mp h
  simp [ha]

/-- The dynamic script's displayed strings under `sampleWorld`. -/
theorem outputs_dyn_sample : outputs sampleWorld dynamicPromptbasedApplication
    = some ["Reasearch Tool", "ALPHA"] := by
  obtain ⟨p, _hp, htr⟩ := run_dynamic sampleWorld rfl
  have hresp : sampleWorld.chatResponse none p = "ALPHA" := rfl
  rw [outputs, htr]
  simp [hresp]

/-- The dynamic script's displayed strings under `altWorld`. -/
theorem outputs_dyn_alt : outputs altWorld dynamicPromptbasedApplication
    = some ["Reasearch Tool", "BETA"] := by
  obtain ⟨p, _hp, htr⟩ := run_dynamic altWorld rfl
  have hresp : altWorld.chatResponse none p = "BETA" := rfl
  rw [outputs, htr]
  simp [hresp]

/-! ## Claim theorems -/

/-- C1 (counterexample): chatPromptTemplate.py refutes the claim that
every script invokes a hosted model: it contains no hosted-call
statement, and a concrete run of it makes no hosted call. -/
theorem chatPromptTemplate_no_hosted_call :
    (subsList chatPromptTemplate).any isHostedCall = false ∧
    hostedCalls sampleWorld chatPromptTemplate = some [] := ⟨rfl, rfl⟩

/-- C1 (amended): four of the five scripts — googleGeminiChatModelDemo.py,
embedd_docs.py, simpleUIApplication.py and (with its button pressed)
dynamicPromptbasedApplication.py — call the hosted model and print or
display its response; chatPromptTemplate.py makes no hosted call and
prints a locally formatted prompt instead. -/
theorem scripts_invoke_model_and_display (w : World)
    (hGo : w.buttonPressed "Go....." = true)
    (hSum : w.buttonPressed "Summarize" = true) :
    trace w googleGeminiChatModelDemo = some [.envLoad, .out "Started",
      .chatCall (some "gemini-2.5-flash") "Tell me a poem of 5 lines on Football",
      .out (w.chatResponse (some "gemini-2.5-flash")
        "Tell me a poem of 5 lines on Football")]
    ∧ trace w embedd_docs = some [.envLoad, .out "Working on Embeddings",
      .embedCall (some "models/gemini-embedding-001") documents,
      .out ("Query Result: "
        ++ w.embedRender (some "models/gemini-embedding-001") documents)]
    ∧ trace w simpleUIApplication = some [.envLoad,
      .out "Simple Gemini Chat Application",
      .chatCall (some "gemini-2.5-flash")
        (w.textInput "Please enter your query for Gemini...."),
      .out (w.chatResponse (some "gemini-2.5-flash")
        (w.textInput "Please enter your query for Gemini...."))]
    ∧ (∃ prompt, formatStr (dynArgs w) template = some prompt ∧
        trace w dynamicPromptbasedApplication = some [.envLoad,
          .out "Reasearch Tool", .chatCall none prompt,
          .out (w.chatResponse none prompt)])
    ∧ hostedCalls w chatPromptTemplate = some []
    ∧ outputs w chatPromptTemplate = some [renderValue (.vMsgs dusraMessages)] :=
  ⟨run_gemini w, run_embedd w, run_simpleUI_pressed w hGo,
   run_dynamic w hSum, rfl, rfl⟩

/-- C1 (witness): the amended claim instantiated at `sampleWorld`. -/
theorem scripts_invoke_model_and_display_witness :
    sampleWorld.buttonPressed "Go....." = true ∧
    sampleWorld.buttonPressed "Summarize" = true ∧
    (trace sampleWorld googleGeminiChatModelDemo = some [.envLoad, .out "Started",
      .chatCall (some "gemini-2.5-flash") "Tell me a poem of 5 lines on Football",
      .out (sampleWorld.chatResponse (some "gemini-2.5-flash")
        "Tell me a poem of 5 lines on Football")]
    ∧ trace sampleWorld embedd_docs = some [.envLoad, .out "Working on Embeddings",
      .embedCall (some "models/gemini-embedding-001") documents,
      .out ("Query Result: "
        ++ sampleWorld.embedRender (some "models/gemini-embedding-001") documents)]
    ∧ trace sampleWorld simpleUIApplication = some [.envLoad,
      .out "Simple Gemini Chat Application",
      .chatCall (some "gemini-2.5-flash")
        (sampleWorld.textInput "Please enter your query for Gemini...."),
      .out (sampleWorld.chatResponse (some "gemini-2.5-flash")
        (sampleWorld.textInput "Please enter your query for Gemini...."))]
    ∧ (∃ prompt, formatStr (dynArgs sampleWorld) template = some prompt ∧
        trace sampleWorld dynamicPromptbasedApplication = some [.envLoad,
          .out "Reasearch Tool", .chatCall none prompt,
          .out (sampleWorld.chatResponse none prompt)])
    ∧ hostedCalls sampleWorld chatPromptTemplate = some []
    ∧ outputs sampleWorld chatPromptTemplate
        = some [renderValue (.vMsgs dusraMessages)]) :=
  ⟨rfl, rfl, scripts_invoke_model_and_display sampleWorld rfl rfl⟩

/-- C2 (counterexample): two worlds with hosted oracles that disagree on
every input give chatPromptTemplate.py identical output, refuting the
claim that every script's output depends on the hosted model. -/
theorem chatPromptTemplate_output_model_independent :
    outputs sampleWorld chatPromptTemplate = outputs altWorld chatPromptTemplate ∧
    sampleWorld.chatResponse none "q" ≠ altWorld.chatResponse none "q" ∧
    sampleWorld.embedRender none [] ≠ altWorld.embedRender none [] := by
  refine ⟨rfl, ?_, ?_⟩ <;> decide

/-- C2 (amended): chatPromptTemplate.py is fully deterministic — its
whole run is the same under every world — while each of the other four
scripts' output changes between two worlds that agree on every UI field
and differ only in the hosted oracles. -/
theorem model_dependence_except_chat_template (w w' : World) :
    run w chatPromptTemplate = run w' chatPromptTemplate ∧
    ∃ w1 w2 : World,
      w1.textInput = w2.textInput ∧ w1.selectIdx = w2.selectIdx ∧
      w1.buttonPressed = w2.buttonPressed ∧
      outputs w1 googleGeminiChatModelDemo ≠ outputs w2 googleGeminiChatModelDemo ∧
      outputs w1 embedd_docs ≠ outputs w2 embedd_docs ∧
      outputs w1 simpleUIApplication ≠ outputs w2 simpleUIApplication ∧
      outputs w1 dynamicPromptbasedApplication
        ≠ outputs w2 dynamicPromptbasedApplication := by
  refine ⟨rfl, sampleWorld, altWorld, rfl, rfl, rfl, ?_, ?_, ?_, ?_⟩
  · decide
  · decide
  · decide
  · rw [outputs_dyn_sample, outputs_dyn_alt]
    simp

/-- C3 (confirmed): invoking chat_template with domain=cricket and
topic=Dusra binds `prompt` to exactly the system message "You are a
helpful cricket expert" followed by the human message "Explain in simple
terms, what is Dusra", and the whole run is identical under every world
(no environment or network state is consulted). -/
theorem chat_template_invoke_exact_messages (w w' : World) :
    (run w chatPromptTemplate).map (fun st => List.lookup "prompt" st.binds)
      = some (some (.vMsgs dusraMessages))
    ∧ dusraMessages = [⟨"system", "You are a helpful cricket expert"⟩,
        ⟨"human", "Explain in simple terms, what is Dusra"⟩]
    ∧ run w chatPromptTemplate = run w' chatPromptTemplate :=
  ⟨rfl, rfl, rfl⟩

/-- C4 (confirmed): no statement of any script, nested bodies included,
catches an exception or defines an error type; in the run semantics an
SDK error (`none`) therefore always propagates to the top level. -/
theorem no_error_handling_in_any_script :
    allScripts.all
      (fun s => (subsList s).all (fun st => !(isErrorHandling st))) = true := by
  decide

/-- C5 (confirmed): the placeholders of the dynamic template are exactly
the declared input variables paper_input, style_input, length_input;
validation succeeds; the one chain.invoke call of the script supplies
exactly those keys; formatting succeeds for every assignment covering
those keys; and no run of the script raises. -/
theorem dynamic_template_variables_consistent :
    placeholders template = some input_variables
    ∧ input_variables = ["paper_input", "style_input", "length_input"]
    ∧ validTemplate template input_variables = true
    ∧ (subsList dynamicPromptbasedApplication).any (fun s =>
        match s with
        | .chainInvoke _ _ _ => true
        | _ => false) = true
    ∧ (subsList dynamicPromptbasedApplication).all (fun s =>
        match s with
        | .chainInvoke _ _ args => args.map Prod.fst == input_variables
        | _ => true) = true
    ∧ (∀ vars : List (String × String),
        (∀ p ∈ input_variables, (List.lookup p vars).isSome) →
        (formatStr vars template).isSome)
    ∧ (∀ w : World, (run w dynamicPromptbasedApplication).isSome) := by
  refine ⟨dyn_placeholders, rfl, dyn_valid, rfl, rfl, ?_, ?_⟩
  · intro vars h
    exact formatStr_isSome vars template input_variables dyn_placeholders h
  · intro w
    cases hb : w.buttonPressed "Summarize"
    · exact run_isSome_of_trace (run_dynamic_unpressed w hb)
    · obtain ⟨p, _, htr⟩ := run_dynamic w hb
      exact run_isSome_of_trace htr

/-- C6 (confirmed): in every script, scanned in execution order, each
model or embeddings client constructor comes after a load_dotenv() call
and passes no explicit credential; the last four conjuncts record that
four of the scripts really do construct such a client. -/
theorem dotenv_precedes_client_constructors :
    allScripts.all (fun s => dotenvBeforeClients false (subsList s)) = true
    ∧ (subsList googleGeminiChatModelDemo).any isClientCtor = true
    ∧ (subsList embedd_docs).any isClientCtor = true
    ∧ (subsList simpleUIApplication).any isClientCtor = true
    ∧ (subsList dynamicPromptbasedApplication).any isClientCtor = true := by
  refine ⟨?_, rfl, rfl, rfl, rfl⟩
  decide

/-- C7 (confirmed): the selectboxes offer four papers, four styles and
three lengths, and under any world with the button pressed the only
hosted call of the dynamic script is the template formatted with one
value drawn from each of those three fixed lists. -/
theorem chain_inputs_drawn_from_selectboxes (w : World)
    (hb : w.buttonPressed "Summarize" = true) :
    paperOptions.length = 4 ∧ styleOptions.length = 4 ∧ lengthOptions.length = 3 ∧
    ∃ p s l prompt, p ∈ paperOptions ∧ s ∈ styleOptions ∧ l ∈ lengthOptions ∧
      formatStr [("paper_input", p), ("style_input", s), ("length_input", l)]
        template = some prompt ∧
      hostedCalls w dynamicPromptbasedApplication
        = some [.chatCall none prompt] := by
  refine ⟨rfl, rfl, rfl, paperSel w, styleSel w, lengthSel w, ?_⟩
  obtain ⟨prompt, hp, htr⟩ := run_dynamic w hb
  refine ⟨prompt, getD_mod_mem _ _ (by simp [paperOptions]),
    getD_mod_mem _ _ (by simp [styleOptions]),
    getD_mod_mem _ _ (by simp [lengthOptions]), hp, ?_⟩
  rw [hostedCalls, htr]
  simp

/-- C7 (witness): the claim instantiated at `sampleWorld`. -/
theorem chain_inputs_drawn_from_selectboxes_witness :
    sampleWorld.buttonPressed "Summarize" = true ∧
    (paperOptions.length = 4 ∧ styleOptions.length = 4 ∧ lengthOptions.length = 3 ∧
     ∃ p s l prompt, p ∈ paperOptions ∧ s ∈ styleOptions ∧ l ∈ lengthOptions ∧
       formatStr [("paper_input", p), ("style_input", s), ("length_input", l)]
         template = some prompt ∧
       hostedCalls sampleWorld dynamicPromptbasedApplication
         = some [.chatCall none prompt]) :=
  ⟨rfl, chain_inputs_drawn_from_selectboxes sampleWorld rfl⟩

/-- C8 (confirmed): no statement of any script, nested bodies included,
spawns a thread, awaits, takes a lock, or opens a handle; the run
semantics is a single sequential pass by construction. -/
theorem no_concurrency_or_resource_primitives :
    allScripts.all (fun s =>
      (subsList s).all (fun st => !(isConcurrencyOrResource st))) = true := by
  decide

/-- C9 (confirmed): under every world, every script runs to completion
and every event of its trace is an environment read, a hosted call, or a
print/display — never a write of persistent state. -/
theorem no_persistent_state_created (w : World) :
    ∀ s ∈ allScripts, ∃ es, trace w s = some es
      ∧ es.all nonPersistentEvent = true := by
  intro s hs
  simp only [allScripts, List.mem_cons, List.not_mem_nil, or_false] at hs
  rcases hs with rfl | rfl | rfl | rfl | rfl
  · exact ⟨_, run_gemini w, rfl⟩
  · exact ⟨_, run_embedd w, rfl⟩
  · exact ⟨[.out (renderValue (.vMsgs dusraMessages))], rfl, rfl⟩
  · cases hb : w.buttonPressed "Go....."
    · exact ⟨_, run_simpleUI_unpressed w hb, rfl⟩
    · exact ⟨_, run_simpleUI_pressed w hb, rfl⟩
  · cases hb : w.buttonPressed "Summarize"
    · exact ⟨_, run_dynamic_unpressed w hb, rfl⟩
    · obtain ⟨p, _, htr⟩ := run_dynamic w hb
      exact ⟨_, htr, rfl⟩

/-- C9 (witness): the claim instantiated at `sampleWorld` and
googleGeminiChatModelDemo.py. -/
theorem no_persistent_state_created_witness :
    googleGeminiChatModelDemo ∈ allScripts ∧
    ∃ es, trace sampleWorld googleGeminiChatModelDemo = some es
      ∧ es.all nonPersistentEvent = true :=
  ⟨by simp [allScripts],
   no_persistent_state_created sampleWorld googleGeminiChatModelDemo
     (by simp [allScripts])⟩

end GenAI
